import Mathlib

/-!
# ENSF Wallet Dashboard — verification of the HTTP / auth / orchestration core

Shallow embedding of the service layer of the ENSF.Wallet-Dashboard repository:
`httpClient.js`, the `ApiService` variants, `authService.js`,
`agenceService.js`, the `apiConfig.js` constants and the `useDashboardData`
orchestration hook.  JavaScript values are modelled by an explicit value type
(`JSVal`) with JavaScript truthiness, property access and optional chaining;
stateful code is modelled by explicit state passing; a thrown exception is an
`Except` error.
-/

namespace ENSF

/-- JavaScript runtime values, as far as the service layer manipulates them:
`undefined`, `null`, booleans, (integer) numbers, strings, arrays and plain
objects given as field lists. -/
inductive JSVal where
  | undefined : JSVal
  | null : JSVal
  | bool : Bool → JSVal
  | num : Int → JSVal
  | str : String → JSVal
  | arr : List JSVal → JSVal
  | obj : List (String × JSVal) → JSVal
deriving Repr

mutual

/-- Structural equality test on `JSVal` (used only as a decidable helper for
concrete evaluations; it is plain structural equality, not the JS `==`). -/
def JSVal.beq : JSVal → JSVal → Bool
  | .undefined, .undefined => true
  | .null, .null => true
  | .bool a, .bool b => a == b
  | .num a, .num b => a == b
  | .str a, .str b => a == b
  | .arr a, .arr b => JSVal.beqList a b
  | .obj a, .obj b => JSVal.beqFields a b
  | _, _ => false

def JSVal.beqList : List JSVal → List JSVal → Bool
  | [], [] => true
  | a :: as, b :: bs => JSVal.beq a b && JSVal.beqList as bs
  | _, _ => false

def JSVal.beqFields : List (String × JSVal) → List (String × JSVal) → Bool
  | [], [] => true
  | (k, a) :: as, (l, b) :: bs => k == l && JSVal.beq a b && JSVal.beqFields as bs
  | _, _ => false

end

instance : BEq JSVal := ⟨JSVal.beq⟩

/-- JavaScript truthiness of a value (NaN is not modelled; numbers are
integers, so a number is falsy exactly when it is `0`). -/
def truthy : JSVal → Bool
  | .undefined => false
  | .null => false
  | .bool b => b
  | .num n => n != 0
  | .str s => s != ""
  | .arr _ => true
  | .obj _ => true

/-- First binding of a key in an object field list (the service layer never
builds objects with duplicate keys). -/
def lookupField : List (String × JSVal) → String → Option JSVal
  | [], _ => none
  | (k, v) :: rest, key => if k == key then some v else lookupField rest key

/-- Plain property access `v.k`: a `TypeError` (`none`) on `null`/`undefined`,
the field (or `undefined` when absent) on an object, and `undefined` on other
primitives. -/
def JSVal.getProp : JSVal → String → Option JSVal
  | .undefined, _ => none
  | .null, _ => none
  | .obj fields, key => some ((lookupField fields key).getD .undefined)
  | _, _ => some .undefined

/-- Optional chaining `v?.k`: `undefined` instead of a `TypeError` on a
nullish base, otherwise plain property access. -/
def JSVal.optProp (v : JSVal) (key : String) : JSVal :=
  match v with
  | .undefined => .undefined
  | .null => .undefined
  | other => (other.getProp key).getD .undefined

/-- JavaScript `a || b`. -/
def jsOr (a b : JSVal) : JSVal :=
  if truthy a then a else b

/-- `Object.prototype.hasOwnProperty` restricted to plain objects, as used by
the facade normalization code (`response.hasOwnProperty('success')`). -/
def JSVal.hasOwn : JSVal → String → Bool
  | .obj fields, key => fields.any (fun p => p.1 == key)
  | _, _ => false

/-- `response && typeof response === 'object'`: truthy and of object type
(arrays included, `null` excluded by truthiness). -/
def isTruthyObject : JSVal → Bool
  | .obj _ => true
  | .arr _ => true
  | _ => false

/-! ## `apiConfig.js` — the configuration constants -/

/-- `RETRY_CONFIG.MAX_RETRIES` in `apiConfig.js`. -/
def RETRY_MAX_RETRIES : Nat := 3

/-- `RETRY_CONFIG.RETRY_DELAY` in `apiConfig.js` (milliseconds). -/
def RETRY_DELAY : Nat := 1000

/-- `RETRY_CONFIG.EXPONENTIAL_BACKOFF` in `apiConfig.js`. -/
def RETRY_EXPONENTIAL_BACKOFF : Bool := true

/-- `ERROR_MESSAGES.NETWORK_ERROR` in `apiConfig.js`. -/
def MSG_NETWORK_ERROR : String := "Erreur de réseau. Veuillez vérifier votre connexion."

/-- `ERROR_MESSAGES.TIMEOUT_ERROR` in `apiConfig.js`. -/
def MSG_TIMEOUT_ERROR : String := "La requête a expiré. Veuillez réessayer."

/-- `ERROR_MESSAGES.UNAUTHORIZED` in `apiConfig.js`. -/
def MSG_UNAUTHORIZED : String := "Session expirée. Veuillez vous reconnecter."

/-- `ERROR_MESSAGES.FORBIDDEN` in `apiConfig.js`. -/
def MSG_FORBIDDEN : String := "Accès non autorisé à cette ressource."

/-- `ERROR_MESSAGES.NOT_FOUND` in `apiConfig.js`. -/
def MSG_NOT_FOUND : String := "Ressource non trouvée."

/-- `ERROR_MESSAGES.SERVER_ERROR` in `apiConfig.js`. -/
def MSG_SERVER_ERROR : String := "Erreur du serveur. Veuillez réessayer plus tard."

/-- `ERROR_MESSAGES.VALIDATION_ERROR` in `apiConfig.js`. -/
def MSG_VALIDATION_ERROR : String := "Données invalides. Veuillez vérifier vos entrées."

/-- `ERROR_MESSAGES.UNKNOWN_ERROR` in `apiConfig.js`. -/
def MSG_UNKNOWN_ERROR : String := "Une erreur inattendue s\x27est produite."

/-! ## `httpClient.js` — the retrying HTTP client

The client throws JavaScript `Error` objects that may carry a `response`
(with its status) and a `name` (`"AbortError"` when `fetch` was aborted by the
timeout controller or a caller).  `HttpError` records exactly the two fields
`isRetryableError` and `getErrorMessage` inspect. -/

/-- An error thrown inside `HttpClient.makeRequest`: `name` is the JavaScript
error name (`"AbortError"` for an aborted fetch), `responseStatus` is
`error.response.status` when a response was received and `none` when the
failure produced no response (network failure or abort). -/
structure HttpError where
  name : String := "Error"
  responseStatus : Option Nat := none
deriving Repr, DecidableEq

/-- `HttpClient.isRetryableError`: retryable iff there is no response at all,
or the response status is ≥ 500 or exactly 408. -/
def isRetryableError (e : HttpError) : Bool :=
  match e.responseStatus with
  | none => true
  | some s => decide (500 ≤ s) || s == 408

/-- `HttpClient.calculateRetryDelay`: the constant `RETRY_DELAY` without
exponential backoff, else `RETRY_DELAY * 2 ^ (attempt - 1)`. -/
def calculateRetryDelay (expBackoff : Bool) (retryDelay : Nat) (attempt : Nat) : Nat :=
  if !expBackoff then retryDelay
  else retryDelay * 2 ^ (attempt - 1)

/-- `HttpClient.getErrorMessage`: an `AbortError` maps to the timeout message,
an error without response to the network message, otherwise the status is
switched over the known codes. -/
def getErrorMessage (e : HttpError) : String :=
  if e.name == "AbortError" then MSG_TIMEOUT_ERROR
  else match e.responseStatus with
    | none => MSG_NETWORK_ERROR
    | some s =>
      if s == 401 then MSG_UNAUTHORIZED
      else if s == 403 then MSG_FORBIDDEN
      else if s == 404 then MSG_NOT_FOUND
      else if s == 400 then MSG_VALIDATION_ERROR
      else if s == 500 then MSG_SERVER_ERROR
      else MSG_UNKNOWN_ERROR

/-- Observable trace of one `HttpClient.makeRequest` call: how many `fetch`
attempts ran, the sleeps inserted between them (in order), and the final
settled result. -/
structure RequestTrace (α : Type) where
  attempts : Nat
  delays : List Nat
  result : Except HttpError α
deriving Repr

/-- The retry loop body of `HttpClient.makeRequest`, from loop counter
`attempt` on.  `transport n` is the outcome of the `n`-th `fetch` (success
value, or thrown `HttpError`).  The loop retries while the attempt is not the
last and the error is retryable, sleeping `calculateRetryDelay attempt`
before the next attempt; a fall-through without any iteration (only possible
when `maxRetries < attempt`) yields the JS `undefined` return, rendered as a
zero-attempt network-error trace. -/
def makeRequestAux {α : Type} (expBackoff : Bool) (retryDelay : Nat) (maxRetries : Nat)
    (transport : Nat → Except HttpError α) (attempt : Nat) : Nat → RequestTrace α
  | 0 => ⟨0, [], .error ⟨"TypeError", none⟩⟩
  | fuel + 1 =>
    match transport attempt with
    | .ok v => ⟨1, [], .ok v⟩
    | .error e =>
      if attempt = maxRetries ∨ isRetryableError e = false then
        ⟨1, [], .error e⟩
      else
        let rest := makeRequestAux expBackoff retryDelay maxRetries transport (attempt + 1) fuel
        ⟨rest.attempts + 1,
         calculateRetryDelay expBackoff retryDelay attempt :: rest.delays,
         rest.result⟩

/-- `HttpClient.makeRequest`: the retry loop started at attempt 1.  The fuel
`maxRetries` counts the iterations the `for` guard still allows
(`attempt ≤ maxRetries` at attempt 1 admits exactly `maxRetries` calls of the
body), so the fuel-0 fall-through coincides with the loop exiting without a
return — the JS `undefined`, only reachable when `maxRetries < 1`. -/
def makeRequest {α : Type} (expBackoff : Bool) (retryDelay : Nat) (maxRetries : Nat)
    (transport : Nat → Except HttpError α) : RequestTrace α :=
  makeRequestAux expBackoff retryDelay maxRetries transport 1 maxRetries

/-- The loop settles immediately when the current attempt succeeds. -/
theorem makeRequestAux_ok {α : Type} (expB : Bool) (rd maxR : Nat)
    (tr : Nat → Except HttpError α) (a : Nat) (v : α)
    (htr : tr a = .ok v) (f : Nat) :
    makeRequestAux expB rd maxR tr a (f + 1) = ⟨1, [], .ok v⟩ := by
  simp only [makeRequestAux, htr]

/-- The loop on a failed attempt: settle when last or non-retryable, else
sleep the backoff delay and continue with the next attempt. -/
theorem makeRequestAux_err {α : Type} (expB : Bool) (rd maxR : Nat)
    (tr : Nat → Except HttpError α) (a : Nat) (e : HttpError)
    (htr : tr a = .error e) (f : Nat) :
    makeRequestAux expB rd maxR tr a (f + 1) =
      if a = maxR ∨ isRetryableError e = false then ⟨1, [], .error e⟩
      else
        ⟨(makeRequestAux expB rd maxR tr (a + 1) f).attempts + 1,
         calculateRetryDelay expB rd a :: (makeRequestAux expB rd maxR tr (a + 1) f).delays,
         (makeRequestAux expB rd maxR tr (a + 1) f).result⟩ := by
  simp only [makeRequestAux, htr]

/-- Full characterization of the retry loop from any attempt `a ≤ maxR`:
at least one and at most `maxR - a + 1` further attempts are made, every
attempt before the last failed retryably, the settled result is exactly the
outcome of the last attempt, the sleeps are the configured backoff delays of
the failed attempts in order, and a settled error is either non-retryable or
occurred on the final allowed attempt. -/
theorem makeRequestAux_spec {α : Type} (expB : Bool) (rd maxR : Nat)
    (tr : Nat → Except HttpError α) :
    ∀ fuel a, a ≤ maxR → maxR + 1 = a + fuel →
      1 ≤ (makeRequestAux expB rd maxR tr a fuel).attempts ∧
      a + ((makeRequestAux expB rd maxR tr a fuel).attempts - 1) ≤ maxR ∧
      (∀ i, i < (makeRequestAux expB rd maxR tr a fuel).attempts - 1 →
        ∃ e, tr (a + i) = .error e ∧ isRetryableError e = true) ∧
      (makeRequestAux expB rd maxR tr a fuel).result
        = tr (a + ((makeRequestAux expB rd maxR tr a fuel).attempts - 1)) ∧
      (makeRequestAux expB rd maxR tr a fuel).delays
        = (List.range ((makeRequestAux expB rd maxR tr a fuel).attempts - 1)).map
            (fun i => calculateRetryDelay expB rd (a + i)) ∧
      (∀ e, (makeRequestAux expB rd maxR tr a fuel).result = .error e →
        a + ((makeRequestAux expB rd maxR tr a fuel).attempts - 1) = maxR ∨
          isRetryableError e = false) := by
  intro fuel
  induction fuel with
  | zero => intro a ha hn; omega
  | succ f ih =>
    intro a ha hn
    cases htr : tr a with
    | ok v =>
      rw [makeRequestAux_ok expB rd maxR tr a v htr f]
      refine ⟨le_refl 1, by simpa using ha, ?_, ?_, rfl, ?_⟩
      · intro i hi; simp at hi
      · simpa using htr.symm
      · intro e he; simp at he
    | error e =>
      by_cases hstop : a = maxR ∨ isRetryableError e = false
      · rw [makeRequestAux_err expB rd maxR tr a e htr f, if_pos hstop]
        refine ⟨le_refl 1, by simpa using ha, ?_, ?_, rfl, ?_⟩
        · intro i hi; simp at hi
        · simpa using htr.symm
        · intro e' he'
          have : e' = e := by simpa using he'.symm
          subst this
          simpa using hstop
      · rw [makeRequestAux_err expB rd maxR tr a e htr f, if_neg hstop]
        push_neg at hstop
        obtain ⟨haM, hre⟩ := hstop
        have hretry : isRetryableError e = true := by
          cases hb : isRetryableError e
          · exact absurd hb hre
          · rfl
        obtain ⟨ih1, ih2, ih3, ih4, ih5, ih6⟩ := ih (a + 1) (by omega) (by omega)
        set rest := makeRequestAux expB rd maxR tr (a + 1) f with hrest
        refine ⟨by simp, ?_, ?_, ?_, ?_, ?_⟩
        · simp only [RequestTrace.attempts]
          omega
        · intro i hi
          simp only [RequestTrace.attempts] at hi
          match i with
          | 0 => exact ⟨e, by simpa using htr, hretry⟩
          | j + 1 =>
            have hj : j < rest.attempts - 1 := by omega
            obtain ⟨e', he', hre'⟩ := ih3 j hj
            exact ⟨e', by rw [show a + (j + 1) = a + 1 + j by omega]; exact he', hre'⟩
        · simp only [RequestTrace.attempts, RequestTrace.result]
          rw [ih4]
          congr 1
          omega
        · simp only [RequestTrace.attempts, RequestTrace.delays]
          rw [ih5]
          obtain ⟨k, hk⟩ : ∃ k, rest.attempts = k + 1 := ⟨rest.attempts - 1, by omega⟩
          rw [hk]
          simp only [Nat.add_sub_cancel, List.range_succ_eq_map, List.map_cons, List.map_map]
          refine congrArg₂ List.cons (by simp) ?_
          refine List.map_congr_left ?_
          intro i _
          simp only [Function.comp_apply]
          congr 1
          omega
        · intro e' he'
          simp only [RequestTrace.result] at he'
          simp only [RequestTrace.attempts]
          rcases ih6 e' he' with hfin | hnr
          · exact Or.inl (by omega)
          · exact Or.inr hnr

/-- C1: `HttpClient.makeRequest` makes between 1 and `maxRetries` total
attempts; every attempt before the last failed with a retryable error (no
response at all, or response status 408 or ≥ 500); the settled result is
exactly the outcome of the last attempt made, so a failing final attempt
throws its error to the caller; an error settled before the attempt ceiling
is non-retryable (such failures surface immediately, with no further
attempt); and with exponential backoff enabled the delay slept after attempt
`n` (i.e. before attempt `n + 1`, at list index `n - 1`) is
`baseDelayMs * 2 ^ (n - 1)`. -/
theorem C1_httpClient_retry_policy {α : Type} (rd maxR : Nat)
    (tr : Nat → Except HttpError α) (hmr : 1 ≤ maxR) :
    (1 ≤ (makeRequest true rd maxR tr).attempts ∧
      (makeRequest true rd maxR tr).attempts ≤ maxR) ∧
    (∀ i, i < (makeRequest true rd maxR tr).attempts - 1 →
      ∃ e, tr (1 + i) = .error e ∧ isRetryableError e = true) ∧
    (makeRequest true rd maxR tr).result = tr (makeRequest true rd maxR tr).attempts ∧
    (∀ e, (makeRequest true rd maxR tr).result = .error e →
      (makeRequest true rd maxR tr).attempts = maxR ∨ isRetryableError e = false) ∧
    (makeRequest true rd maxR tr).delays
      = (List.range ((makeRequest true rd maxR tr).attempts - 1)).map
          (fun n => rd * 2 ^ n) := by
  obtain ⟨h1, h2, h3, h4, h5, h6⟩ :=
    makeRequestAux_spec true rd maxR tr maxR 1 hmr (by omega)
  simp only [makeRequest] at *
  refine ⟨⟨h1, by omega⟩, h3, ?_, ?_, ?_⟩
  · rw [h4]
    congr 1
    omega
  · intro e he
    rcases h6 e he with hfin | hnr
    · exact Or.inl (by omega)
    · exact Or.inr hnr
  · rw [h5]
    refine List.map_congr_left ?_
    intro i _
    simp [calculateRetryDelay, Nat.add_sub_cancel_left]

/-- The spec's mock transport: every attempt is answered with HTTP 503. -/
def transport503 : Nat → Except HttpError Unit :=
  fun _ => .error ⟨"Error", some 503⟩

/-- Witness for C1 at the configured defaults (`maxRetries = 3`,
`baseDelay = 1000`, exponential backoff on) against the always-503 mock. -/
theorem C1_httpClient_retry_policy_witness :
    1 ≤ RETRY_MAX_RETRIES ∧
    ((1 ≤ (makeRequest true RETRY_DELAY RETRY_MAX_RETRIES transport503).attempts ∧
      (makeRequest true RETRY_DELAY RETRY_MAX_RETRIES transport503).attempts
        ≤ RETRY_MAX_RETRIES) ∧
    (∀ i, i < (makeRequest true RETRY_DELAY RETRY_MAX_RETRIES transport503).attempts - 1 →
      ∃ e, transport503 (1 + i) = .error e ∧ isRetryableError e = true) ∧
    (makeRequest true RETRY_DELAY RETRY_MAX_RETRIES transport503).result
      = transport503 (makeRequest true RETRY_DELAY RETRY_MAX_RETRIES transport503).attempts ∧
    (∀ e, (makeRequest true RETRY_DELAY RETRY_MAX_RETRIES transport503).result = .error e →
      (makeRequest true RETRY_DELAY RETRY_MAX_RETRIES transport503).attempts = RETRY_MAX_RETRIES ∨
        isRetryableError e = false) ∧
    (makeRequest true RETRY_DELAY RETRY_MAX_RETRIES transport503).delays
      = (List.range
          ((makeRequest true RETRY_DELAY RETRY_MAX_RETRIES transport503).attempts - 1)).map
          (fun n => RETRY_DELAY * 2 ^ n)) :=
  ⟨by decide,
   C1_httpClient_retry_policy RETRY_DELAY RETRY_MAX_RETRIES transport503 (by decide)⟩

/-- Concrete run backing C1's witness: the always-503 mock is attempted
exactly three times, the two inter-attempt delays are 1000 ms and 2000 ms,
and the final 503 error is the settled outcome. -/
theorem makeRequest_always503_run :
    makeRequest true RETRY_DELAY RETRY_MAX_RETRIES transport503
      = ⟨3, [1000, 2000], .error ⟨"Error", some 503⟩⟩ := by
  rfl

/-- The error `fetch` rejects with when its abort controller fires (a caller
abort or the timeout): an `AbortError` carrying no response. -/
def abortError : HttpError := ⟨"AbortError", none⟩

/-- Transport whose first attempt is aborted before any response arrives. -/
def transportAborted : Nat → Except HttpError Unit :=
  fun _ => .error abortError

/-- Counterexample to C7: in `httpClient.js` an aborted request rejects with
an `AbortError` that has no `response`, which `isRetryableError` classifies
as retryable, so the abort of attempt 1 is followed by further attempts (3
in total at the default config) instead of zero retries; and
`getErrorMessage` maps `AbortError` to the Timeout message, so the
cancellation error is not distinct from the `Timeout` error kind. -/
theorem C7_cancellation_counterexample :
    isRetryableError abortError = true ∧
    (makeRequest true RETRY_DELAY RETRY_MAX_RETRIES transportAborted).attempts = 3 ∧
    getErrorMessage abortError = MSG_TIMEOUT_ERROR := by
  exact ⟨rfl, rfl, rfl⟩

/-- C7 amended: an abort surfaces as an `AbortError` without a response;
`isRetryableError` therefore classifies it as retryable, so when the abort
happens before the final allowed attempt the client retries the request (at
least one further attempt is made); and the user-facing message of an
`AbortError` is exactly the Timeout message, not a distinct cancellation
kind. -/
theorem C7_cancellation_is_retried {α : Type} (rd maxR : Nat)
    (tr : Nat → Except HttpError α) (hmr : 2 ≤ maxR)
    (h1 : tr 1 = .error abortError) :
    2 ≤ (makeRequest true rd maxR tr).attempts ∧
    isRetryableError abortError = true ∧
    getErrorMessage abortError = MSG_TIMEOUT_ERROR := by
  refine ⟨?_, rfl, rfl⟩
  obtain ⟨f, hf⟩ : ∃ f, maxR = f + 1 := ⟨maxR - 1, by omega⟩
  subst hf
  have hrest :=
    (makeRequestAux_spec true rd (f + 1) tr f 2 (by omega) (by omega)).1
  have hstep : (makeRequestAux true rd (f + 1) tr 1 (f + 1)).attempts
      = (makeRequestAux true rd (f + 1) tr 2 f).attempts + 1 := by
    rw [makeRequestAux_err true rd (f + 1) tr 1 abortError h1 f,
      if_neg (by simp [isRetryableError, abortError]; omega)]
  rw [makeRequest, hstep]
  omega

/-- Witness for C7's amended theorem at the default configuration and the
always-aborting transport. -/
theorem C7_cancellation_is_retried_witness :
    2 ≤ RETRY_MAX_RETRIES ∧
    (2 ≤ (makeRequest true RETRY_DELAY RETRY_MAX_RETRIES transportAborted).attempts ∧
    isRetryableError abortError = true ∧
    getErrorMessage abortError = MSG_TIMEOUT_ERROR) :=
  ⟨by decide,
   C7_cancellation_is_retried RETRY_DELAY RETRY_MAX_RETRIES transportAborted
     (by decide) rfl⟩

/-! ## `ApiService.js` (first variant, lines 16–806) — `makeRequest` with the
401 refresh-and-retry loop

`makeRequest(url, options)` loops `attempt = 1 .. maxRetries` (`maxRetries`
is the local constant 3).  Inside the loop a 401 triggers
`refreshAuthToken()`; on success with attempts remaining the loop
`continue`s, otherwise the stored tokens are cleared and `'UNAUTHORIZED'` is
thrown — which the surrounding `catch` turns into one more retry round
unless the message is `'FORBIDDEN'` or `'NOT_FOUND'` (the only two `break`
cases).  When the loop ends without a return the function returns
`{success: false, error: lastError.message, status: 0}`.  The inter-attempt
sleeps (`1000 * attempt`) are not recorded in the trace. -/

/-- Outcome of one `fetch` inside the first `ApiService.makeRequest`: the
fetch itself rejected (with the rejection's `message`), or a response with a
status and a parsed JSON body. -/
inductive FetchOut where
  | netErr (msg : String)
  | resp (status : Nat) (body : JSVal)
deriving Repr

/-- The `{success: false, error: lastError.message, status: 0}` envelope
returned when the retry loop gives up (a `none` message — `lastError`
undefined — is unreachable once the loop body ran at least once). -/
def apiFailEnvelope (lastError : Option String) : JSVal :=
  .obj [("success", .bool false),
        ("error", match lastError with | some m => .str m | none => .undefined),
        ("status", .num 0)]

/-- The `{success: true, data, status}` envelope of a successful attempt. -/
def apiOkEnvelope (status : Nat) (body : JSVal) : JSVal :=
  .obj [("success", .bool true), ("data", body), ("status", .num status)]

/-- Stringification of `errorData.message` when passed to `new Error(...)`. -/
def jsToErrString : JSVal → String
  | .str s => s
  | .num n => toString n
  | .bool true => "true"
  | .bool false => "false"
  | _ => ""

/-- Observable trace of one call of the first `ApiService.makeRequest`: the
number of `fetch` attempts, the number of `refreshAuthToken()` calls,
whether `clearTokens()` ran, and the returned envelope. -/
structure ApiTrace where
  attempts : Nat
  refreshCalls : Nat
  tokensCleared : Bool
  result : JSVal
deriving Repr

/-- The retry loop of the first `ApiService.makeRequest`.  `responses n` is
the outcome of the `n`-th fetch, `refreshOk k` the outcome of the `k`-th
`refreshAuthToken()` call (`false` covers both a failed refresh and a
missing refresh token).  The fuel counts the iterations the loop guard
still admits; fuel 0 is the loop ending and returning the failure
envelope. -/
def apiMakeRequestAux (responses : Nat → FetchOut) (refreshOk : Nat → Bool)
    (maxRetries : Nat) : Nat → Nat → Option String → Bool → Nat → ApiTrace
  | attempt, rc, lastError, cleared, 0 =>
    ⟨attempt - 1, rc, cleared, apiFailEnvelope lastError⟩
  | attempt, rc, lastError, cleared, fuel + 1 =>
    match responses attempt with
    | .netErr msg =>
      if msg = "FORBIDDEN" ∨ msg = "NOT_FOUND" then
        ⟨attempt, rc, cleared, apiFailEnvelope (some msg)⟩
      else
        apiMakeRequestAux responses refreshOk maxRetries (attempt + 1) rc (some msg) cleared fuel
    | .resp status body =>
      if status == 401 then
        if refreshOk (rc + 1) = true ∧ attempt < maxRetries then
          apiMakeRequestAux responses refreshOk maxRetries (attempt + 1) (rc + 1)
            lastError cleared fuel
        else
          apiMakeRequestAux responses refreshOk maxRetries (attempt + 1) (rc + 1)
            (some "UNAUTHORIZED") true fuel
      else if status == 403 then
        ⟨attempt, rc, cleared, apiFailEnvelope (some "FORBIDDEN")⟩
      else if status == 404 then
        ⟨attempt, rc, cleared, apiFailEnvelope (some "NOT_FOUND")⟩
      else if 500 ≤ status then
        apiMakeRequestAux responses refreshOk maxRetries (attempt + 1) rc
          (some "SERVER_ERROR") cleared fuel
      else if 200 ≤ status ∧ status < 300 then
        ⟨attempt, rc, cleared, apiOkEnvelope status body⟩
      else
        apiMakeRequestAux responses refreshOk maxRetries (attempt + 1) rc
          (some (if truthy (body.optProp "message") then jsToErrString (body.optProp "message")
                 else "HTTP " ++ toString status)) cleared fuel

/-- The first `ApiService.makeRequest` with its hard-coded `maxRetries = 3`. -/
def apiMakeRequest (responses : Nat → FetchOut) (refreshOk : Nat → Bool) : ApiTrace :=
  apiMakeRequestAux responses refreshOk 3 1 0 none false 3

/-- The same loop with a parametric attempt ceiling (used to state the
behaviour for every `maxRetries`). -/
def apiMakeRequestWith (maxRetries : Nat) (responses : Nat → FetchOut)
    (refreshOk : Nat → Bool) : ApiTrace :=
  apiMakeRequestAux responses refreshOk maxRetries 1 0 none false maxRetries

/-- A backend that answers 401 to every request. -/
def always401 : Nat → FetchOut := fun _ => .resp 401 .null

/-- A refresh endpoint that succeeds on every call. -/
def refreshAlwaysOk : Nat → Bool := fun _ => true

/-- One 401 iteration of the loop: call `refreshAuthToken()`, `continue`
when it succeeded with attempts remaining, else clear the tokens, throw
`'UNAUTHORIZED'` and let the catch clause run one more retry round. -/
theorem apiAux_step_401 (responses : Nat → FetchOut) (refreshOk : Nat → Bool)
    (maxR a rc : Nat) (le : Option String) (cl : Bool) (f : Nat) (body : JSVal)
    (h : responses a = .resp 401 body) :
    apiMakeRequestAux responses refreshOk maxR a rc le cl (f + 1)
      = if refreshOk (rc + 1) = true ∧ a < maxR then
          apiMakeRequestAux responses refreshOk maxR (a + 1) (rc + 1) le cl f
        else
          apiMakeRequestAux responses refreshOk maxR (a + 1) (rc + 1)
            (some "UNAUTHORIZED") true f := by
  conv_lhs => rw [apiMakeRequestAux, h]
  rfl

/-- On an always-401 backend the loop keeps going: one `refreshAuthToken()`
call per 401 attempt, `fuel + 1` further attempts from any loop state inside
the range, tokens cleared by the final round, and the returned envelope is
`{success: false, error: 'UNAUTHORIZED', status: 0}`. -/
theorem apiAlways401_aux (refreshOk : Nat → Bool) (maxR : Nat) :
    ∀ f a rc le cl, maxR = a + f →
      apiMakeRequestAux always401 refreshOk maxR a rc le cl (f + 1)
        = ⟨maxR, rc + (f + 1), true, apiFailEnvelope (some "UNAUTHORIZED")⟩ := by
  intro f
  induction f with
  | zero =>
    intro a rc le cl ha
    rw [apiAux_step_401 always401 refreshOk maxR a rc le cl 0 .null rfl,
      if_neg (by rintro ⟨_, hlt⟩; omega)]
    have h0 : apiMakeRequestAux always401 refreshOk maxR (a + 1) (rc + 1)
        (some "UNAUTHORIZED") true 0
        = ⟨a, rc + 1, true, apiFailEnvelope (some "UNAUTHORIZED")⟩ := rfl
    rw [h0, show a = maxR by omega]
  | succ f ih =>
    intro a rc le cl ha
    rw [apiAux_step_401 always401 refreshOk maxR a rc le cl (f + 1) .null rfl]
    by_cases hr : refreshOk (rc + 1) = true
    · rw [if_pos ⟨hr, by omega⟩, ih (a + 1) (rc + 1) le cl (by omega),
        show rc + 1 + (f + 1) = rc + (f + 1 + 1) by omega]
    · rw [if_neg (by rintro ⟨hc, _⟩; exact hr hc),
        ih (a + 1) (rc + 1) (some "UNAUTHORIZED") true (by omega),
        show rc + 1 + (f + 1) = rc + (f + 1 + 1) by omega]

/-- Counterexample to C3: against an always-401 backend whose refresh
endpoint always succeeds, the first `ApiService.makeRequest` performs 3
fetch attempts and 3 token refreshes — not exactly one refresh and at most
one retry — and returns (rather than throws) the
`{success: false, error: 'UNAUTHORIZED', status: 0}` envelope. -/
theorem C3_single_refresh_counterexample :
    (apiMakeRequest always401 refreshAlwaysOk).refreshCalls = 3 ∧
    (apiMakeRequest always401 refreshAlwaysOk).attempts = 3 ∧
    (apiMakeRequest always401 refreshAlwaysOk).tokensCleared = true ∧
    (apiMakeRequest always401 refreshAlwaysOk).result
      = apiFailEnvelope (some "UNAUTHORIZED") :=
  ⟨rfl, rfl, rfl, rfl⟩

/-- C3 amended: on a non-login request that keeps answering 401, the client
attempts one token refresh per failed attempt up to the attempt ceiling
(`maxRetries = 3` in the source), i.e. `maxRetries` fetches and `maxRetries`
refresh calls in total; the stored tokens are cleared; and the caller
receives the `{success: false, error: 'UNAUTHORIZED', status: 0}` envelope
as a return value.  The 401 is thus retried in the ordinary retry loop,
bounded by `maxRetries`, not refreshed exactly once and retried at most
once. -/
theorem C3_401_refresh_loop (refreshOk : Nat → Bool) (maxR : Nat) (hmr : 1 ≤ maxR) :
    apiMakeRequestWith maxR always401 refreshOk
      = ⟨maxR, maxR, true, apiFailEnvelope (some "UNAUTHORIZED")⟩ := by
  obtain ⟨f, hf⟩ : ∃ f, maxR = f + 1 := ⟨maxR - 1, by omega⟩
  subst hf
  rw [apiMakeRequestWith, apiAlways401_aux refreshOk (f + 1) f 1 0 none false (by omega),
    Nat.zero_add]

/-- Witness for C3's amended theorem at the source's `maxRetries = 3` with an
always-succeeding refresh endpoint. -/
theorem C3_401_refresh_loop_witness :
    1 ≤ 3 ∧
    apiMakeRequestWith 3 always401 refreshAlwaysOk
      = ⟨3, 3, true, apiFailEnvelope (some "UNAUTHORIZED")⟩ :=
  ⟨by decide, C3_401_refresh_loop refreshAlwaysOk 3 (by decide)⟩

/-! ## `ApiService.js` (second variant, lines 823–2055) — facade envelope
normalization and listing fallbacks

This variant's `makeRequest(method, url, options)` returns the parsed JSON
body directly and throws `Error` objects on failure.  Facade operations
receive either that value or the thrown error, modelled as
`Except JSVal JSVal`. -/

/-- `typeof v === 'string'`. -/
def JSVal.isStr : JSVal → Bool
  | .str _ => true
  | _ => false

/-- `ApiService.formatError` (second variant, line 1559): falsy → generic
unknown-error text; a string is returned as is; else a truthy `message`
field, else a truthy `error` field, else a generic text.  (`error` is truthy
in the non-string branches, so the plain accesses cannot throw; optional
lookup is therefore an exact rendering.) -/
def formatError (error : JSVal) : JSVal :=
  if truthy error = false then .str "Une erreur inconnue s\x27est produite"
  else if error.isStr then error
  else if truthy (error.optProp "message") then error.optProp "message"
  else if truthy (error.optProp "error") then error.optProp "error"
  else .str "Une erreur s\x27est produite"

/-- `ApiService.getAdminDashboard` (second variant): a truthy object
response is passed through when it has its own `success` field and is
otherwise wrapped as `{success: true, data: response}`; a non-object
response raises `Error('Invalid response format')`; any caught error yields
`{success: false, error: formatError(error)}`. -/
def getAdminDashboard (res : Except JSVal JSVal) : JSVal :=
  match res with
  | .error e => .obj [("success", .bool false), ("error", formatError e)]
  | .ok response =>
    if isTruthyObject response then
      if response.hasOwn "success" then response
      else .obj [("success", .bool true), ("data", response)]
    else
      .obj [("success", .bool false),
            ("error", formatError (.obj [("message", .str "Invalid response format")]))]

/-- `ApiService.getUsers` (second variant, line 1180): delegates to
`getAdminUsers` (whose value is returned unchanged); a thrown error is
caught and replaced by `{success: false, error, data: {content: [],
totalElements: 0, totalPages: 0, size, number}}`. -/
def getUsers (page size : Int) (res : Except JSVal JSVal) : JSVal :=
  match res with
  | .ok v => v
  | .error e =>
    .obj [("success", .bool false),
          ("error", formatError e),
          ("data", .obj [("content", .arr []),
                         ("totalElements", .num 0),
                         ("totalPages", .num 0),
                         ("size", .num size),
                         ("number", .num page)])]

/-- `AgenceService.getPendingDocuments` (`agenceService.js` line 351): when
authenticated it returns `response.data` of the underlying
`httpClient.get`; a thrown error is logged and rethrown (`throw error`), not
replaced by a fallback page.  An unauthenticated call throws before the
request. -/
def agenceGetPendingDocuments (authed : Bool) (res : Except JSVal JSVal) :
    Except JSVal JSVal :=
  if authed = false then
    .error (.obj [("message", .str "User not authenticated. Please login first.")])
  else
    match res with
    | .ok response => .ok ((response.getProp "data").getD .undefined)
    | .error e => .error e

/-- Counterexample to C5: the raw payload `{foo: 1}` is wrapped by
`getAdminDashboard` as `{success: true, data: {foo: 1}}` with no `error`
field at all, not as the claimed `{success: true, data: {foo: 1},
error: null}`. -/
theorem C5_wrap_counterexample :
    getAdminDashboard (.ok (.obj [("foo", .num 1)]))
      = .obj [("success", .bool true), ("data", .obj [("foo", .num 1)])] ∧
    (getAdminDashboard (.ok (.obj [("foo", .num 1)]))).hasOwn "error" = false ∧
    getAdminDashboard (.ok (.obj [("foo", .num 1)]))
      ≠ .obj [("success", .bool true), ("data", .obj [("foo", .num 1)]),
              ("error", .null)] := by
  refine ⟨rfl, rfl, ?_⟩
  intro h
  simp [getAdminDashboard, isTruthyObject, JSVal.hasOwn] at h

/-- C5 amended: a truthy object payload that has its own `success` field
(of any type — the code tests presence, not booleanness) is passed through
unchanged; a truthy object payload without one is wrapped as
`{success: true, data: payload}`, with no `error` field. -/
theorem C5_envelope_normalization (v : JSVal) (hobj : isTruthyObject v = true) :
    (v.hasOwn "success" = true → getAdminDashboard (.ok v) = v) ∧
    (v.hasOwn "success" = false →
      getAdminDashboard (.ok v) = .obj [("success", .bool true), ("data", v)] ∧
      (getAdminDashboard (.ok v)).hasOwn "error" = false) := by
  constructor
  · intro hs
    simp [getAdminDashboard, hobj, hs]
  · intro hs
    have hwrap : getAdminDashboard (.ok v) = .obj [("success", .bool true), ("data", v)] := by
      simp [getAdminDashboard, hobj, hs]
    refine ⟨hwrap, ?_⟩
    rw [hwrap]
    rfl

/-- Witness for C5's amended theorem: the already-wrapped
`{success: false, error: "x"}` is passed through unchanged, and the raw
`{foo: 1}` is wrapped without an `error` field. -/
theorem C5_envelope_normalization_witness :
    (isTruthyObject (.obj [("success", .bool false), ("error", .str "x")]) = true ∧
      ((JSVal.obj [("success", .bool false), ("error", .str "x")]).hasOwn "success" = true →
        getAdminDashboard (.ok (.obj [("success", .bool false), ("error", .str "x")]))
          = .obj [("success", .bool false), ("error", .str "x")])) ∧
    (isTruthyObject (.obj [("foo", .num 1)]) = true ∧
      ((JSVal.obj [("foo", .num 1)]).hasOwn "success" = false →
        getAdminDashboard (.ok (.obj [("foo", .num 1)]))
          = .obj [("success", .bool true), ("data", .obj [("foo", .num 1)])] ∧
        (getAdminDashboard (.ok (.obj [("foo", .num 1)]))).hasOwn "error" = false)) :=
  ⟨⟨rfl, (C5_envelope_normalization
      (.obj [("success", .bool false), ("error", .str "x")]) rfl).1⟩,
   ⟨rfl, (C5_envelope_normalization (.obj [("foo", .num 1)]) rfl).2⟩⟩

/-- Counterexample to C6: `AgenceService.getPendingDocuments` propagates the
underlying HTTP error to its caller (`throw error`) instead of returning an
empty-but-well-typed page. -/
theorem C6_pendingDocuments_counterexample :
    agenceGetPendingDocuments true (.error (.obj [("message", .str "Network Error")]))
      = .error (.obj [("message", .str "Network Error")]) := by
  rfl

/-- C6 amended: `ApiService.getUsers` does return the well-typed empty page
`{content: [], totalElements: 0, totalPages: 0, size, number}` with
`success: false` and a formatted error message whenever the underlying call
throws — but `AgenceService.getPendingDocuments` rethrows the error
unchanged, so not every listing operation of the service layer falls back to
an empty page. -/
theorem C6_listing_fallbacks (page size : Int) (e : JSVal) :
    getUsers page size (.error e)
      = .obj [("success", .bool false),
              ("error", formatError e),
              ("data", .obj [("content", .arr []),
                             ("totalElements", .num 0),
                             ("totalPages", .num 0),
                             ("size", .num size),
                             ("number", .num page)])] ∧
    agenceGetPendingDocuments true (.error e) = .error e := by
  exact ⟨rfl, rfl⟩

/-! ## Browser primitives used by `authService.js`: `atob` and `JSON.parse`

`parseTokenExpiry` runs `JSON.parse(atob(token.split('.')[1]))`.  Both
builtins are modelled executably: `atob` follows the forgiving-base64
algorithm (strip ASCII whitespace, strip up to two `=` of padding when the
length is a multiple of 4, reject a length `≡ 1 (mod 4)` or any character
outside the alphabet), and `jsonParse` is a fuel-bounded recursive-descent
JSON reader over `JSVal` (numbers are integers; a fractional or exponent
part makes the parse fail rather than producing a float, which no theorem
below relies on). -/

/-- Position of a character in the standard base64 alphabet. -/
def b64Index (c : Char) : Option Nat :=
  if 'A' ≤ c ∧ c ≤ 'Z' then some (c.toNat - 65)
  else if 'a' ≤ c ∧ c ≤ 'z' then some (c.toNat - 97 + 26)
  else if '0' ≤ c ∧ c ≤ '9' then some (c.toNat - 48 + 52)
  else if c = '+' then some 62
  else if c = '/' then some 63
  else none

/-- Groups of base64 sextets to bytes (a trailing group of 2 or 3 sextets
contributes 1 or 2 bytes). -/
def b64Bytes : List Nat → List Nat
  | a :: b :: c :: d :: rest =>
    (a * 4 + b / 16) :: ((b % 16) * 16 + c / 4) :: ((c % 4) * 64 + d) :: b64Bytes rest
  | [a, b] => [a * 4 + b / 16]
  | [a, b, c] => [a * 4 + b / 16, (b % 16) * 16 + c / 4]
  | _ => []

/-- Strip up to two trailing `=`. -/
def b64DropPad (cs : List Char) : List Char :=
  match cs.reverse with
  | '=' :: '=' :: rest => rest.reverse
  | '=' :: rest => rest.reverse
  | _ => cs

/-- The browser's `atob`: forgiving-base64 decode to a binary string (one
character per byte). -/
def atob (s : String) : Option String :=
  let cs := s.data.filter fun c =>
    decide (c ≠ ' ' ∧ c ≠ '\t' ∧ c ≠ '\n' ∧ c ≠ '\r' ∧ c ≠ '\x0c')
  let cs := if cs.length % 4 = 0 then b64DropPad cs else cs
  if cs.length % 4 = 1 then none
  else match cs.mapM b64Index with
    | none => none
    | some sextets => some (String.mk ((b64Bytes sextets).map Char.ofNat))

/-- JSON whitespace. -/
def jsonWs (c : Char) : Bool :=
  c = ' ' ∨ c = '\t' ∨ c = '\n' ∨ c = '\r'

/-- Drop leading JSON whitespace. -/
def skipWs (cs : List Char) : List Char :=
  cs.dropWhile jsonWs

/-- Value of a hexadecimal digit. -/
def hexVal (c : Char) : Option Nat :=
  if '0' ≤ c ∧ c ≤ '9' then some (c.toNat - 48)
  else if 'a' ≤ c ∧ c ≤ 'f' then some (c.toNat - 97 + 10)
  else if 'A' ≤ c ∧ c ≤ 'F' then some (c.toNat - 65 + 10)
  else none

/-- Body of a JSON string after the opening quote: the decoded characters
and the input after the closing quote. -/
def parseStrAux : List Char → Option (List Char × List Char)
  | [] => none
  | '"' :: rest => some ([], rest)
  | '\\' :: esc =>
    match esc with
    | '"' :: rest => (parseStrAux rest).map fun p => ('"' :: p.1, p.2)
    | '\\' :: rest => (parseStrAux rest).map fun p => ('\\' :: p.1, p.2)
    | '/' :: rest => (parseStrAux rest).map fun p => ('/' :: p.1, p.2)
    | 'n' :: rest => (parseStrAux rest).map fun p => ('\n' :: p.1, p.2)
    | 't' :: rest => (parseStrAux rest).map fun p => ('\t' :: p.1, p.2)
    | 'r' :: rest => (parseStrAux rest).map fun p => ('\r' :: p.1, p.2)
    | 'b' :: rest => (parseStrAux rest).map fun p => ('\x08' :: p.1, p.2)
    | 'f' :: rest => (parseStrAux rest).map fun p => ('\x0c' :: p.1, p.2)
    | 'u' :: h1 :: h2 :: h3 :: h4 :: rest =>
      match hexVal h1, hexVal h2, hexVal h3, hexVal h4 with
      | some a, some b, some c, some d =>
        (parseStrAux rest).map fun p => (Char.ofNat (((a * 16 + b) * 16 + c) * 16 + d) :: p.1, p.2)
      | _, _, _, _ => none
    | _ => none
  | c :: rest => (parseStrAux rest).map fun p => (c :: p.1, p.2)

/-- A JSON number restricted to integers (a `.`/`e`/`E` continuation makes
the parse fail; no theorem depends on non-integer numbers). -/
def parseNum (cs : List Char) : Option (JSVal × List Char) :=
  let p := match cs with
    | '-' :: rest => (true, rest)
    | _ => (false, cs)
  let digs := p.2.takeWhile Char.isDigit
  let rest := p.2.dropWhile Char.isDigit
  if digs.isEmpty then none
  else match rest with
    | '.' :: _ => none
    | 'e' :: _ => none
    | 'E' :: _ => none
    | _ =>
      let n : Nat := digs.foldl (fun a c => a * 10 + (c.toNat - 48)) 0
      some (.num (if p.1 then -(n : Int) else (n : Int)), rest)

mutual

/-- Fuel-bounded JSON value reader. -/
def parseVal : Nat → List Char → Option (JSVal × List Char)
  | 0, _ => none
  | fuel + 1, cs =>
    match skipWs cs with
    | 'n' :: 'u' :: 'l' :: 'l' :: rest => some (.null, rest)
    | 't' :: 'r' :: 'u' :: 'e' :: rest => some (.bool true, rest)
    | 'f' :: 'a' :: 'l' :: 's' :: 'e' :: rest => some (.bool false, rest)
    | '"' :: rest => (parseStrAux rest).map fun p => (.str (String.mk p.1), p.2)
    | '[' :: rest =>
      (match skipWs rest with
       | ']' :: rest2 => some (.arr [], rest2)
       | _ => (parseElems fuel rest).map fun p => (.arr p.1, p.2))
    | '{' :: rest =>
      (match skipWs rest with
       | '}' :: rest2 => some (.obj [], rest2)
       | _ => (parseMembers fuel rest).map fun p => (.obj p.1, p.2))
    | other => parseNum other

/-- Comma-separated array elements up to the closing bracket. -/
def parseElems : Nat → List Char → Option (List JSVal × List Char)
  | 0, _ => none
  | fuel + 1, cs =>
    match parseVal fuel cs with
    | none => none
    | some (v, rest) =>
      match skipWs rest with
      | ',' :: rest2 => (parseElems fuel rest2).map fun p => (v :: p.1, p.2)
      | ']' :: rest2 => some ([v], rest2)
      | _ => none

/-- Comma-separated object members up to the closing brace. -/
def parseMembers : Nat → List Char → Option (List (String × JSVal) × List Char)
  | 0, _ => none
  | fuel + 1, cs =>
    match skipWs cs with
    | '"' :: rest =>
      match parseStrAux rest with
      | none => none
      | some (key, rest2) =>
        match skipWs rest2 with
        | ':' :: rest3 =>
          (match parseVal fuel rest3 with
           | none => none
           | some (v, rest4) =>
             match skipWs rest4 with
             | ',' :: rest5 =>
               (parseMembers fuel rest5).map fun p => ((String.mk key, v) :: p.1, p.2)
             | '}' :: rest5 => some ([(String.mk key, v)], rest5)
             | _ => none)
        | _ => none
    | _ => none

end

/-- The browser's `JSON.parse`, restricted as documented on `parseVal`. -/
def jsonParse (s : String) : Option JSVal :=
  match parseVal (2 * s.length + 2) s.data with
  | some (v, rest) => if (skipWs rest).isEmpty then some v else none
  | none => none

/-! ## `authService.js` — token parsing, session storage, refresh scheduling

State model: the `AuthService` fields (`currentUser`, `authToken`,
`refreshToken`, `tokenExpiryTime`, `refreshTimer`), the `httpClient` default
`Authorization` header, the parsed `ensf_auth` localStorage entry, and the
multiset of timers currently armed in the browser (`pendingTimers`, as a
list of ids).  A `setTimeout` call arms a fresh id; `clearTimeout` removes
it; an armed timer is one that will eventually fire its refresh callback. -/

/-- JavaScript `String.prototype.split('.')` (no limit): the dot-separated
segments, empty segments included. -/
def splitDotAux : List Char → List Char → List (List Char)
  | [], acc => [acc.reverse]
  | '.' :: rest, acc => acc.reverse :: splitDotAux rest []
  | c :: rest, acc => splitDotAux rest (c :: acc)

/-- `token.split('.')`. -/
def tokenSegments (s : String) : List String :=
  (splitDotAux s.data []).map String.mk

/-- `AuthService.parseTokenExpiry`: decode segment `[1]` (whatever the total
segment count) as base64 JSON and return `exp * 1000` for a truthy `exp`;
any failure is caught and becomes `null` (`none`).  The `none`-segment case
is exact: `atob(undefined)` coerces to the 9-character string `"undefined"`,
whose forgiving-base64 length check throws.  A truthy non-numeric `exp`
would give `NaN` in JS; it is rendered as `none` here and no theorem relies
on it. -/
def parseTokenExpiry (token : String) : Option Int :=
  match (tokenSegments token).get? 1 with
  | none => none
  | some seg =>
    match atob seg with
    | none => none
    | some decoded =>
      match jsonParse decoded with
      | none => none
      | some payload =>
        match payload.getProp "exp" with
        | none => none
        | some expv =>
          if truthy expv then
            match expv with
            | .num n => some (n * 1000)
            | _ => none
          else none

/-- The `{user, token, refreshToken, tokenExpiryTime}` blob stored under the
`ensf_auth` localStorage key. -/
structure SessionRec where
  user : JSVal
  token : Option String
  refreshToken : Option String
  tokenExpiryTime : Option Int
deriving Repr

/-- The mutable state of the `authService` singleton together with its
observable environment. -/
structure AuthEnv where
  currentUser : JSVal
  authToken : Option String
  refreshToken : Option String
  tokenExpiryTime : Option Int
  refreshTimer : Option Nat
  pendingTimers : List Nat
  httpAuthToken : Option String
  ensfAuth : Option SessionRec
deriving Repr

/-- JS truthiness of a nullable number (`0` is falsy). -/
def optIntTruthy : Option Int → Bool
  | none => false
  | some n => n != 0

/-- JS truthiness of a nullable string (`''` is falsy). -/
def optStrTruthy : Option String → Bool
  | none => false
  | some s => s != ""

/-- `AuthService.clearAuthData`: null every field, drop the HTTP client's
auth header, cancel a pending refresh timer, remove the stored session. -/
def clearAuthData (env : AuthEnv) : AuthEnv :=
  { env with
    currentUser := .null, authToken := none, refreshToken := none,
    tokenExpiryTime := none, httpAuthToken := none,
    pendingTimers :=
      (match env.refreshTimer with
       | some t => env.pendingTimers.erase t
       | none => env.pendingTimers),
    refreshTimer := none,
    ensfAuth := none }

/-- `AuthService.storeAuthData`: persist the current fields as one blob. -/
def storeAuthData (env : AuthEnv) : AuthEnv :=
  { env with
    ensfAuth := some ⟨env.currentUser, env.authToken, env.refreshToken, env.tokenExpiryTime⟩ }

/-- `AuthService.logout`: the server notification is fire-and-forget and a
throwing `isAuthenticated()` is caught, so the state effect is always
`clearAuthData`. -/
def logout (env : AuthEnv) : AuthEnv :=
  clearAuthData env

/-- `AuthService.scheduleTokenRefresh`: return early when expiry or refresh
token is falsy (without cancelling anything); otherwise cancel the existing
timer, then arm a fresh one when the refresh moment (5 minutes before
expiry) is still ahead, else log out. -/
def scheduleTokenRefresh (now : Int) (freshId : Nat) (env : AuthEnv) : AuthEnv :=
  if optIntTruthy env.tokenExpiryTime = false ∨ optStrTruthy env.refreshToken = false then
    env
  else if env.tokenExpiryTime.getD 0 - now - 5 * 60 * 1000 > 0 then
    { env with
      refreshTimer := some freshId,
      pendingTimers := freshId ::
        (match env.refreshTimer with
         | some t => env.pendingTimers.erase t
         | none => env.pendingTimers) }
  else
    logout
      { env with
        pendingTimers :=
          (match env.refreshTimer with
           | some t => env.pendingTimers.erase t
           | none => env.pendingTimers) }

/-- The `{token, refreshToken, user}` fields extracted from a successful
login response's `data`. -/
structure LoginData where
  token : String
  refreshToken : Option String
  user : JSVal
deriving Repr

/-- `AuthService.loginUserService`, success path: set the four fields (the
expiry from `parseTokenExpiry`, whatever it returns), push the token into
the HTTP client, store the blob, schedule the refresh. -/
def loginUserService (now : Int) (freshId : Nat) (env : AuthEnv) (d : LoginData) : AuthEnv :=
  let env1 :=
    { env with
      authToken := some d.token, refreshToken := d.refreshToken,
      currentUser := d.user, tokenExpiryTime := parseTokenExpiry d.token,
      httpAuthToken := some d.token }
  scheduleTokenRefresh now freshId (storeAuthData env1)

/-- `AuthService.initializeFromStorage`: adopt the stored session only when
its expiry is truthy and still ahead of `now`; otherwise clear everything. -/
def initFromStorage (now : Int) (freshId : Nat) (env : AuthEnv) : AuthEnv :=
  match env.ensfAuth with
  | none => env
  | some a =>
    if optIntTruthy a.tokenExpiryTime = true ∧ now < a.tokenExpiryTime.getD 0 then
      scheduleTokenRefresh now freshId
        { env with
          currentUser := a.user, authToken := a.token,
          refreshToken := a.refreshToken, tokenExpiryTime := a.tokenExpiryTime,
          httpAuthToken := a.token }
    else clearAuthData env

/-- JavaScript `String.prototype.includes` (substring test). -/
def strIncludesAux (needle : List Char) : List Char → Bool
  | [] => needle.isEmpty
  | c :: rest => needle.isPrefixOf (c :: rest) || strIncludesAux needle rest

/-- `Array.prototype.includes` on a JS array, for a string argument. -/
def jsIncludesStr (xs : List JSVal) (s : String) : Bool :=
  xs.any fun v => JSVal.beq v (.str s)

/-- `AuthService.isAuthenticated`: reads `this.currentUser.roles` with a
plain access, so a `null` user is a `TypeError`; `roles.includes` works on
an array or a string and is a `TypeError` on anything else (including a
user object without `roles`). -/
def isAuthenticated (env : AuthEnv) : Except String Bool :=
  match env.currentUser.getProp "roles" with
  | none => .error "TypeError"
  | some roles =>
    match roles with
    | .arr xs =>
      if jsIncludesStr xs "ADMIN" || jsIncludesStr xs "AGENCE" then .ok true
      else .ok (truthy env.currentUser && optStrTruthy env.authToken)
    | .str s =>
      if strIncludesAux "ADMIN".data s.data || strIncludesAux "AGENCE".data s.data then .ok true
      else .ok (truthy env.currentUser && optStrTruthy env.authToken)
    | _ => .error "TypeError"

/-- The `AuthService` constructor (lines 22–33): read the `currentUser`
localStorage key twice — first guarded by truthiness for `this.currentUser`,
then unguarded for `this.adminToken`, where `JSON.parse(null)` coerces to
the string `"null"` and yields the value `null`, so the `.accessToken`
access throws a `TypeError` whenever the key is absent.  On success the
constructor runs `initializeFromStorage`. -/
def authConstructor (storage : String → Option String) (ensf : Option SessionRec)
    (now : Int) (freshId : Nat) : Except String AuthEnv :=
  let item := storage "currentUser"
  let cu : Except String JSVal :=
    match item with
    | none => .ok .null
    | some s =>
      if s = "" then .ok .null
      else match jsonParse s with
        | some v => .ok v
        | none => .error "SyntaxError"
  match cu with
  | .error e => .error e
  | .ok cuV =>
    let parsed : Except String JSVal :=
      match item with
      | none => .ok .null
      | some s =>
        match jsonParse s with
        | some v => .ok v
        | none => .error "SyntaxError"
    match parsed with
    | .error e => .error e
    | .ok pv =>
      match pv.getProp "accessToken" with
      | none => .error "TypeError"
      | some _adminTok =>
        .ok (initFromStorage now freshId
          { currentUser := cuV, authToken := none, refreshToken := none,
            tokenExpiryTime := none, refreshTimer := none, pendingTimers := [],
            httpAuthToken := none, ensfAuth := ensf })

/-- A fresh anonymous environment (cleared state, nothing stored). -/
def anonEnv : AuthEnv :=
  ⟨.null, none, none, none, none, [], none, none⟩

/-- Counterexample to C4: `"a.eyJleHAiOjEwfQ.c.d"` has four dot-separated
segments yet `parseTokenExpiry` accepts it (it only ever looks at segment
`[1]`); and logging in with the undecodable token `"x.y.z"` stores a session
whose `authToken` is non-null while `tokenExpiryTime` is null — the session
is stored, not rejected, and the stored-session invariant fails. -/
theorem C4_token_validation_counterexample :
    parseTokenExpiry "a.eyJleHAiOjEwfQ.c.d" = some 10000 ∧
    (loginUserService 0 1 anonEnv ⟨"x.y.z", some "r", .obj []⟩).authToken = some "x.y.z" ∧
    (loginUserService 0 1 anonEnv ⟨"x.y.z", some "r", .obj []⟩).tokenExpiryTime = none ∧
    (loginUserService 0 1 anonEnv ⟨"x.y.z", some "r", .obj []⟩).ensfAuth
      = some ⟨.obj [], some "x.y.z", some "r", none⟩ :=
  ⟨rfl, rfl, rfl, rfl⟩

/-- C4 amended: `parseTokenExpiry` decodes dot-segment `[1]` regardless of
the total segment count and yields `null` on any failure; the login success
path stores the session unconditionally, so a token with an undecodable
payload produces a stored session with a non-null `authToken` and a null
`tokenExpiryTime` (the claimed invariant is violated at login); such a
session is only discarded on the next restore, where
`initializeFromStorage` treats the falsy expiry as expired and clears
everything. -/
theorem C4_malformed_token_still_stored (env : AuthEnv) (d : LoginData)
    (now now2 : Int) (tid tid2 : Nat) (hm : parseTokenExpiry d.token = none) :
    (loginUserService now tid env d).authToken = some d.token ∧
    (loginUserService now tid env d).tokenExpiryTime = none ∧
    (loginUserService now tid env d).ensfAuth
      = some ⟨d.user, some d.token, d.refreshToken, none⟩ ∧
    (initFromStorage now2 tid2 (loginUserService now tid env d)).authToken = none ∧
    (initFromStorage now2 tid2 (loginUserService now tid env d)).ensfAuth = none := by
  have hlogin : loginUserService now tid env d
      = { env with
          authToken := some d.token, refreshToken := d.refreshToken,
          currentUser := d.user, tokenExpiryTime := none,
          httpAuthToken := some d.token,
          ensfAuth := some ⟨d.user, some d.token, d.refreshToken, none⟩ } := by
    simp [loginUserService, storeAuthData, scheduleTokenRefresh, hm, optIntTruthy]
  rw [hlogin]
  refine ⟨rfl, rfl, rfl, ?_, ?_⟩ <;>
    simp [initFromStorage, clearAuthData, optIntTruthy]

/-- Witness for C4's amended theorem with the undecodable token `"x.y.z"`. -/
theorem C4_malformed_token_still_stored_witness :
    parseTokenExpiry "x.y.z" = none ∧
    ((loginUserService 0 1 anonEnv ⟨"x.y.z", some "r", .obj []⟩).authToken = some "x.y.z" ∧
    (loginUserService 0 1 anonEnv ⟨"x.y.z", some "r", .obj []⟩).tokenExpiryTime = none ∧
    (loginUserService 0 1 anonEnv ⟨"x.y.z", some "r", .obj []⟩).ensfAuth
      = some ⟨.obj [], some "x.y.z", some "r", none⟩ ∧
    (initFromStorage 5 2 (loginUserService 0 1 anonEnv ⟨"x.y.z", some "r", .obj []⟩)).authToken
      = none ∧
    (initFromStorage 5 2 (loginUserService 0 1 anonEnv ⟨"x.y.z", some "r", .obj []⟩)).ensfAuth
      = none) :=
  ⟨rfl, C4_malformed_token_still_stored anonEnv ⟨"x.y.z", some "r", .obj []⟩ 0 5 1 2 rfl⟩

/-! ### C8 — refresh timer rescheduling -/

/-- The singleton's timer bookkeeping matches the browser: the armed timers
are exactly the one recorded in `refreshTimer` (if any). -/
def TimerWF (env : AuthEnv) : Prop :=
  env.pendingTimers = env.refreshTimer.toList

/-- On the arming path (truthy expiry and refresh token, refresh moment
ahead) `scheduleTokenRefresh` cancels the previously armed timer and arms
exactly the fresh one. -/
theorem scheduleTokenRefresh_arms (env : AuthEnv) (now : Int) (id : Nat)
    (hexp : optIntTruthy env.tokenExpiryTime = true)
    (href : optStrTruthy env.refreshToken = true)
    (ht : env.tokenExpiryTime.getD 0 - now - 5 * 60 * 1000 > 0) :
    scheduleTokenRefresh now id env
      = { env with
          refreshTimer := some id,
          pendingTimers := id ::
            (match env.refreshTimer with
             | some t => env.pendingTimers.erase t
             | none => env.pendingTimers) } := by
  unfold scheduleTokenRefresh
  rw [if_neg (by simp [hexp, href]), if_pos ht]

/-- C8: re-arming is idempotent.  From a well-formed state, (a) two
successive `scheduleTokenRefresh` calls on a live session leave exactly one
armed timer — the second call's — and the first call's timer is cancelled,
so exactly one refresh callback will eventually fire; and (b) every call
preserves well-formedness and leaves at most one armed timer, on all of its
paths. -/
theorem C8_reschedule_single_timer (env : AuthEnv) (now1 now2 : Int) (id1 id2 : Nat)
    (hwf : TimerWF env)
    (hexp : optIntTruthy env.tokenExpiryTime = true)
    (href : optStrTruthy env.refreshToken = true)
    (ht1 : env.tokenExpiryTime.getD 0 - now1 - 5 * 60 * 1000 > 0)
    (ht2 : env.tokenExpiryTime.getD 0 - now2 - 5 * 60 * 1000 > 0)
    (hid : id1 ≠ id2) :
    (scheduleTokenRefresh now1 id1 env).pendingTimers = [id1] ∧
    (scheduleTokenRefresh now2 id2 (scheduleTokenRefresh now1 id1 env)).pendingTimers = [id2] ∧
    id1 ∉ (scheduleTokenRefresh now2 id2 (scheduleTokenRefresh now1 id1 env)).pendingTimers ∧
    (∀ e now id, TimerWF e → TimerWF (scheduleTokenRefresh now id e) ∧
      (scheduleTokenRefresh now id e).pendingTimers.length ≤ 1) := by
  have herase : (match env.refreshTimer with
      | some t => env.pendingTimers.erase t
      | none => env.pendingTimers) = [] := by
    rw [TimerWF] at hwf
    cases h : env.refreshTimer with
    | none => rw [hwf, h]; rfl
    | some t => rw [hwf, h]; simp [Option.toList]
  have h1 : scheduleTokenRefresh now1 id1 env
      = { env with refreshTimer := some id1, pendingTimers := [id1] } := by
    rw [scheduleTokenRefresh_arms env now1 id1 hexp href ht1, herase]
  have h2 : scheduleTokenRefresh now2 id2 (scheduleTokenRefresh now1 id1 env)
      = { env with refreshTimer := some id2, pendingTimers := [id2] } := by
    rw [h1,
      scheduleTokenRefresh_arms
        { env with refreshTimer := some id1, pendingTimers := [id1] } now2 id2 hexp href ht2]
    simp
  refine ⟨by rw [h1], by rw [h2], by rw [h2]; simp [hid], ?_⟩
  intro e now id hwfe
  rw [TimerWF] at hwfe
  unfold scheduleTokenRefresh
  by_cases hguard : optIntTruthy e.tokenExpiryTime = false ∨ optStrTruthy e.refreshToken = false
  · rw [if_pos hguard]
    refine ⟨hwfe, ?_⟩
    rw [hwfe]
    cases e.refreshTimer <;> simp [Option.toList]
  · rw [if_neg hguard]
    have herase2 : (match e.refreshTimer with
        | some t => e.pendingTimers.erase t
        | none => e.pendingTimers) = [] := by
      cases h : e.refreshTimer with
      | none => rw [hwfe, h]; rfl
      | some t => rw [hwfe, h]; simp [Option.toList]
    by_cases harm : e.tokenExpiryTime.getD 0 - now - 5 * 60 * 1000 > 0
    · rw [if_pos harm, herase2]
      exact ⟨rfl, by simp⟩
    · rw [if_neg harm, herase2]
      cases h : e.refreshTimer <;>
        refine ⟨?_, ?_⟩ <;>
          simp [logout, clearAuthData, TimerWF, Option.toList, h]

/-- A live authenticated environment for C8's witness: token expiring at
epoch 600000 ms, refresh token present, no timer armed yet. -/
def timerEnv : AuthEnv :=
  ⟨.null, some "tok", some "r", some 600000, none, [], some "tok", none⟩

/-- Witness for C8 at `timerEnv`, re-arming at times 0 and 1000 with fresh
timer ids 1 and 2. -/
theorem C8_reschedule_single_timer_witness :
    TimerWF timerEnv ∧
    ((scheduleTokenRefresh 0 1 timerEnv).pendingTimers = [1] ∧
    (scheduleTokenRefresh 1000 2 (scheduleTokenRefresh 0 1 timerEnv)).pendingTimers = [2] ∧
    1 ∉ (scheduleTokenRefresh 1000 2 (scheduleTokenRefresh 0 1 timerEnv)).pendingTimers ∧
    (∀ e now id, TimerWF e → TimerWF (scheduleTokenRefresh now id e) ∧
      (scheduleTokenRefresh now id e).pendingTimers.length ≤ 1)) :=
  ⟨rfl, C8_reschedule_single_timer timerEnv 0 1000 1 2 rfl rfl rfl
    (by decide) (by decide) (by decide)⟩

/-! ### C10 — the constructor and `isAuthenticated` on a missing user -/

/-- C10: when the `currentUser` localStorage key is absent, the `AuthService`
constructor's unguarded `(JSON.parse(localStorage.getItem('currentUser')))
.accessToken` dereferences `null` and throws a `TypeError` (so the
module-level `new AuthService()` fails); and `isAuthenticated()` reads
`this.currentUser.roles` with a plain access, so it throws a `TypeError`
instead of returning `false` whenever `currentUser` is `null`. -/
theorem C10_constructor_crashes_without_user (storage : String → Option String)
    (ensf : Option SessionRec) (now : Int) (tid : Nat) (env : AuthEnv)
    (h1 : storage "currentUser" = none) (h2 : env.currentUser = .null) :
    authConstructor storage ensf now tid = .error "TypeError" ∧
    isAuthenticated env = .error "TypeError" := by
  constructor
  · simp [authConstructor, h1, JSVal.getProp]
  · simp [isAuthenticated, h2, JSVal.getProp]

/-- Witness for C10: the empty storage and the anonymous environment. -/
theorem C10_constructor_crashes_without_user_witness :
    (fun (_ : String) => (none : Option String)) "currentUser" = none ∧
    anonEnv.currentUser = .null ∧
    (authConstructor (fun _ => none) none 0 1 = .error "TypeError" ∧
      isAuthenticated anonEnv = .error "TypeError") :=
  ⟨rfl, rfl, C10_constructor_crashes_without_user (fun _ => none) none 0 1 anonEnv rfl rfl⟩

/-! ## `useDashboardData` (src/unnamed/part_007) — the dashboard orchestrator

State: the `dashboardData` slots (per service), the per-operation `loading`
flags and the per-operation `errors` entries.  Error entries start as the
absent keys of `{}` (`undefined` here), become `null` when cleared and a
formatted string after a failure.  A fetch outcome is
`Except JSVal JSVal`: the resolved value or the rejection reason. -/

/-- The `dashboardData` slots. -/
structure DashData where
  statistics : JSVal
  clients : JSVal
  dashboard : JSVal
  users : JSVal
  documents : JSVal
  agencies : JSVal
  transactions : JSVal
  health : JSVal
  recentActivity : JSVal
deriving Repr

/-- The `loading` flags. -/
structure LoadingFlags where
  dashboard : Bool
  users : Bool
  documents : Bool
  agencies : Bool
  transactions : Bool
  statistics : Bool
  health : Bool
  recentActivity : Bool
deriving Repr

/-- The `errors` entries for the operations the hook manages. -/
structure ErrorSlots where
  dashboard : JSVal
  users : JSVal
  documents : JSVal
  statistics : JSVal
  health : JSVal
  recentActivity : JSVal
deriving Repr

/-- The hook's whole state. -/
structure DashboardState where
  data : DashData
  loading : LoadingFlags
  errors : ErrorSlots
deriving Repr

/-- The hook's initial state (slots `null`, the two list slots `[]`, nothing
loading, no error entries). -/
def dashInit : DashboardState :=
  ⟨⟨.null, .arr [], .null, .null, .null, .null, .null, .null, .arr []⟩,
   ⟨false, false, false, false, false, false, false, false⟩,
   ⟨.undefined, .undefined, .undefined, .undefined, .undefined, .undefined⟩⟩

/-- `safeFormatError`: a string as is, else a truthy `userMessage`, else a
truthy `message`, else a generic text. -/
def safeFormatError (error : JSVal) : JSVal :=
  if error.isStr then error
  else if truthy (error.optProp "userMessage") then error.optProp "userMessage"
  else if truthy (error.optProp "message") then error.optProp "message"
  else .str "Une erreur inattendue s\x27est produite"

/-- Final value of a data slot after its fetch settles: the resolved value,
or the previous value when the fetch rejected. -/
def updSlot (prev : JSVal) : Except JSVal JSVal → JSVal
  | .ok v => v
  | .error _ => prev

/-- Final value of an error entry after its fetch settles
(`setOperationError` stores `error ? safeFormatError(error) : null`). -/
def updErr : Except JSVal JSVal → JSVal
  | .ok _ => .null
  | .error e => if truthy e then safeFormatError e else .null

/-- Net state effect of `fetchUserServiceData` (the `statistics` slots). -/
def applyFetchStatistics (s : DashboardState) (o : Except JSVal JSVal) : DashboardState :=
  { s with
    data := { s.data with statistics := updSlot s.data.statistics o },
    errors := { s.errors with statistics := updErr o },
    loading := { s.loading with statistics := false } }

/-- Net state effect of `fetchAgenceServiceDashboard` (the `dashboard`
slots). -/
def applyFetchDashboard (s : DashboardState) (o : Except JSVal JSVal) : DashboardState :=
  { s with
    data := { s.data with dashboard := updSlot s.data.dashboard o },
    errors := { s.errors with dashboard := updErr o },
    loading := { s.loading with dashboard := false } }

/-- Net state effect of `fetchSystemHealth` (the `health` slots). -/
def applyFetchHealth (s : DashboardState) (o : Except JSVal JSVal) : DashboardState :=
  { s with
    data := { s.data with health := updSlot s.data.health o },
    errors := { s.errors with health := updErr o },
    loading := { s.loading with health := false } }

/-- Net state effect of `fetchPendingDocuments` (the `documents` slots). -/
def applyFetchDocuments (s : DashboardState) (o : Except JSVal JSVal) : DashboardState :=
  { s with
    data := { s.data with documents := updSlot s.data.documents o },
    errors := { s.errors with documents := updErr o },
    loading := { s.loading with documents := false } }

/-- Net state effect of `fetchUsers` (the `users` slots). -/
def applyFetchUsers (s : DashboardState) (o : Except JSVal JSVal) : DashboardState :=
  { s with
    data := { s.data with users := updSlot s.data.users o },
    errors := { s.errors with users := updErr o },
    loading := { s.loading with users := false } }

/-- Net state effect of `fetchRecentActivity` (the `recentActivity`
slots). -/
def applyFetchRecentActivity (s : DashboardState) (o : Except JSVal JSVal) : DashboardState :=
  { s with
    data := { s.data with recentActivity := updSlot s.data.recentActivity o },
    errors := { s.errors with recentActivity := updErr o },
    loading := { s.loading with recentActivity := false } }

/-- `initializeDashboard`: set the `dashboard` loading flag and clear its
error entry, run the five fetches joined by `Promise.allSettled`, then drop
the `dashboard` loading flag.  The five settlements write disjoint slots
(only `fetchAgenceServiceDashboard` touches the `dashboard` keys among
them), so this sequential composition equals every interleaving of the
concurrent updates. -/
def initDashboard (s : DashboardState)
    (oStats oDash oHealth oDocs oRecent : Except JSVal JSVal) : DashboardState :=
  let s0 :=
    { s with
      loading := { s.loading with dashboard := true },
      errors := { s.errors with dashboard := .null } }
  let s5 :=
    applyFetchRecentActivity
      (applyFetchDocuments
        (applyFetchHealth
          (applyFetchDashboard (applyFetchStatistics s0 oStats) oDash) oHealth) oDocs) oRecent
  { s5 with loading := { s5.loading with dashboard := false } }

/-- `combinedStatistics` (`useMemo` over `dashboardData`): `null` when both
statistics sources are missing, else the merged record with `|| 0`,
`|| 'UNKNOWN'`, `|| 'Unknown'`, `|| {}` defaults; `nowIso` stands for the
`new Date().toISOString()` fallback. -/
def combinedStatistics (d : DashData) (nowIso : String) : JSVal :=
  let userStats := d.statistics
  let agenceStats := d.dashboard.optProp "userStatistics"
  let documentsStats := d.documents
  if truthy userStats = false ∧ truthy agenceStats = false then .null
  else
    .obj [
      ("totalClients", jsOr (userStats.optProp "totalClients") (.num 0)),
      ("activeClients", jsOr (userStats.optProp "activeClients") (.num 0)),
      ("pendingClients", jsOr (userStats.optProp "pendingClients") (.num 0)),
      ("blockedClients", jsOr (userStats.optProp "blockedClients") (.num 0)),
      ("rejectedClients", jsOr (userStats.optProp "rejectedClients") (.num 0)),
      ("newClientsToday", jsOr (userStats.optProp "newClientsToday") (.num 0)),
      ("newClientsThisWeek", jsOr (userStats.optProp "newClientsThisWeek") (.num 0)),
      ("newClientsThisMonth", jsOr (userStats.optProp "newClientsThisMonth") (.num 0)),
      ("totalUsers", jsOr (agenceStats.optProp "totalUsers") (.num 0)),
      ("activeUsers", jsOr (agenceStats.optProp "activeUsers") (.num 0)),
      ("pendingUsers", jsOr (agenceStats.optProp "pendingUsers") (.num 0)),
      ("blockedUsers", jsOr (agenceStats.optProp "blockedUsers") (.num 0)),
      ("pendingDocuments", jsOr (documentsStats.optProp "totalElements") (.num 0)),
      ("systemHealth", jsOr (d.health.optProp "status") (.str "UNKNOWN")),
      ("dataSource", .obj [
        ("clients", jsOr (userStats.optProp "source") (.str "Unknown")),
        ("isRealData", .bool (JSVal.beq (userStats.optProp "source") (.str "UserService"))),
        ("lastUpdated", jsOr (userStats.optProp "generatedAt") (.str nowIso))]),
      ("clientsWithAccounts", jsOr (userStats.optProp "clientsWithAccounts") (.num 0)),
      ("clientsWithTransactions", jsOr (userStats.optProp "clientsWithTransactions") (.num 0)),
      ("totalAccountBalance", jsOr (userStats.optProp "totalAccountBalance") (.num 0)),
      ("agencyDistribution", jsOr (userStats.optProp "agencyDistribution") (.obj [])),
      ("statusDistribution", jsOr (userStats.optProp "statusDistribution") (.obj [])),
      ("registrationTrends", jsOr (userStats.optProp "registrationTrends") (.obj []))]

/-- The fetch outcomes `refreshData` may need, one per refreshable kind. -/
structure FetchOutcomes where
  statistics : Except JSVal JSVal
  dashboard : Except JSVal JSVal
  health : Except JSVal JSVal
  documents : Except JSVal JSVal
  users : Except JSVal JSVal
  recentActivity : Except JSVal JSVal

/-- `refreshData(dataType)`: dispatch over the `refreshFunctions` map — note
that the `dashboard` kind maps to `initializeDashboard`, not to
`fetchAgenceServiceDashboard`; an unknown kind only warns. -/
def refreshData (s : DashboardState) (kind : String) (o : FetchOutcomes) : DashboardState :=
  if kind = "dashboard" then
    initDashboard s o.statistics o.dashboard o.health o.documents o.recentActivity
  else if kind = "users" then applyFetchUsers s o.users
  else if kind = "documents" then applyFetchDocuments s o.documents
  else if kind = "health" then applyFetchHealth s o.health
  else if kind = "statistics" then applyFetchStatistics s o.statistics
  else if kind = "recentActivity" then applyFetchRecentActivity s o.recentActivity
  else s

/-- Optional chaining on a falsy base never reaches a field: every falsy
value is primitive or nullish, so `v?.k` is `undefined`. -/
theorem optProp_of_falsy (v : JSVal) (k : String) (h : truthy v = false) :
    v.optProp k = .undefined := by
  cases v with
  | undefined => rfl
  | null => rfl
  | bool b => rfl
  | num n => rfl
  | str s => rfl
  | arr xs => simp [truthy] at h
  | obj fs => simp [truthy] at h

/-- The field-by-field computation rule of a non-null `combinedStatistics`
record: every count field merges its source field with the `0` default, and
`systemHealth` merges the health slot's `status` with the `'UNKNOWN'`
default. -/
def combinedDefaults (d : DashData) (nowIso : String) : Prop :=
  (combinedStatistics d nowIso).optProp "totalClients"
    = jsOr (d.statistics.optProp "totalClients") (.num 0) ∧
  (combinedStatistics d nowIso).optProp "activeClients"
    = jsOr (d.statistics.optProp "activeClients") (.num 0) ∧
  (combinedStatistics d nowIso).optProp "pendingClients"
    = jsOr (d.statistics.optProp "pendingClients") (.num 0) ∧
  (combinedStatistics d nowIso).optProp "blockedClients"
    = jsOr (d.statistics.optProp "blockedClients") (.num 0) ∧
  (combinedStatistics d nowIso).optProp "rejectedClients"
    = jsOr (d.statistics.optProp "rejectedClients") (.num 0) ∧
  (combinedStatistics d nowIso).optProp "newClientsToday"
    = jsOr (d.statistics.optProp "newClientsToday") (.num 0) ∧
  (combinedStatistics d nowIso).optProp "newClientsThisWeek"
    = jsOr (d.statistics.optProp "newClientsThisWeek") (.num 0) ∧
  (combinedStatistics d nowIso).optProp "newClientsThisMonth"
    = jsOr (d.statistics.optProp "newClientsThisMonth") (.num 0) ∧
  (combinedStatistics d nowIso).optProp "totalUsers"
    = jsOr ((d.dashboard.optProp "userStatistics").optProp "totalUsers") (.num 0) ∧
  (combinedStatistics d nowIso).optProp "activeUsers"
    = jsOr ((d.dashboard.optProp "userStatistics").optProp "activeUsers") (.num 0) ∧
  (combinedStatistics d nowIso).optProp "pendingUsers"
    = jsOr ((d.dashboard.optProp "userStatistics").optProp "pendingUsers") (.num 0) ∧
  (combinedStatistics d nowIso).optProp "blockedUsers"
    = jsOr ((d.dashboard.optProp "userStatistics").optProp "blockedUsers") (.num 0) ∧
  (combinedStatistics d nowIso).optProp "pendingDocuments"
    = jsOr (d.documents.optProp "totalElements") (.num 0) ∧
  (combinedStatistics d nowIso).optProp "systemHealth"
    = jsOr (d.health.optProp "status") (.str "UNKNOWN")

/-- `combinedStatistics` is total on every slot assignment: it is either the
`null` of the both-sources-missing case or a record obeying the
field-by-field default rules. -/
theorem combined_null_or_defaults (d : DashData) (nowIso : String) :
    combinedStatistics d nowIso = .null ∨ combinedDefaults d nowIso := by
  by_cases hc : truthy d.statistics = false
      ∧ truthy (d.dashboard.optProp "userStatistics") = false
  · left
    simp only [combinedStatistics]
    rw [if_pos hc]
  · right
    simp only [combinedDefaults, combinedStatistics]
    rw [if_neg hc]
    exact ⟨rfl, rfl, rfl, rfl, rfl, rfl, rfl, rfl, rfl, rfl, rfl, rfl, rfl, rfl⟩

/-- C2: the five initialization fetches are joined with all-settled
semantics over disjoint slots — each data slot and error entry of the
resulting state is a function of its own fetch's outcome alone
(`updSlot`/`updErr`), so the rejection of any one fetch leaves every other
slot at exactly what that fetch resolved to, while the slots no
initialization fetch owns are untouched; and `combinedStatistics` over the
resulting slots never throws: it is `null` or a record whose count fields
carry the `|| 0` default and whose `systemHealth` carries the
`|| 'UNKNOWN'` default, where `jsOr` of any falsy operand (the five
falsy value forms are enumerated) is the default. -/
theorem C2_allSettled_partial_failure (s : DashboardState)
    (o1 o2 o3 o4 o5 : Except JSVal JSVal) (nowIso : String) :
    ((initDashboard s o1 o2 o3 o4 o5).data.statistics = updSlot s.data.statistics o1 ∧
     (initDashboard s o1 o2 o3 o4 o5).data.dashboard = updSlot s.data.dashboard o2 ∧
     (initDashboard s o1 o2 o3 o4 o5).data.health = updSlot s.data.health o3 ∧
     (initDashboard s o1 o2 o3 o4 o5).data.documents = updSlot s.data.documents o4 ∧
     (initDashboard s o1 o2 o3 o4 o5).data.recentActivity
       = updSlot s.data.recentActivity o5) ∧
    ((initDashboard s o1 o2 o3 o4 o5).errors.statistics = updErr o1 ∧
     (initDashboard s o1 o2 o3 o4 o5).errors.dashboard = updErr o2 ∧
     (initDashboard s o1 o2 o3 o4 o5).errors.health = updErr o3 ∧
     (initDashboard s o1 o2 o3 o4 o5).errors.documents = updErr o4 ∧
     (initDashboard s o1 o2 o3 o4 o5).errors.recentActivity = updErr o5) ∧
    ((initDashboard s o1 o2 o3 o4 o5).data.users = s.data.users ∧
     (initDashboard s o1 o2 o3 o4 o5).data.clients = s.data.clients ∧
     (initDashboard s o1 o2 o3 o4 o5).data.agencies = s.data.agencies ∧
     (initDashboard s o1 o2 o3 o4 o5).data.transactions = s.data.transactions ∧
     (initDashboard s o1 o2 o3 o4 o5).errors.users = s.errors.users ∧
     (initDashboard s o1 o2 o3 o4 o5).loading.users = s.loading.users ∧
     (initDashboard s o1 o2 o3 o4 o5).loading.agencies = s.loading.agencies ∧
     (initDashboard s o1 o2 o3 o4 o5).loading.transactions = s.loading.transactions) ∧
    ((initDashboard s o1 o2 o3 o4 o5).loading.statistics = false ∧
     (initDashboard s o1 o2 o3 o4 o5).loading.dashboard = false ∧
     (initDashboard s o1 o2 o3 o4 o5).loading.health = false ∧
     (initDashboard s o1 o2 o3 o4 o5).loading.documents = false ∧
     (initDashboard s o1 o2 o3 o4 o5).loading.recentActivity = false) ∧
    (combinedStatistics (initDashboard s o1 o2 o3 o4 o5).data nowIso = .null ∨
      combinedDefaults (initDashboard s o1 o2 o3 o4 o5).data nowIso) ∧
    (∀ dflt, jsOr .null dflt = dflt ∧ jsOr .undefined dflt = dflt ∧
      jsOr (.num 0) dflt = dflt ∧ jsOr (.str "") dflt = dflt ∧
      jsOr (.bool false) dflt = dflt) := by
  refine ⟨⟨rfl, rfl, rfl, rfl, rfl⟩, ⟨rfl, rfl, rfl, rfl, rfl⟩,
    ⟨rfl, rfl, rfl, rfl, rfl, rfl, rfl, rfl⟩, ⟨rfl, rfl, rfl, rfl, rfl⟩,
    combined_null_or_defaults _ _, fun dflt => ⟨rfl, rfl, rfl, rfl, rfl⟩⟩

/-- Outcomes where every fetch resolves to a distinct marker value. -/
def outsA : FetchOutcomes :=
  ⟨.ok (.str "S"), .ok (.str "D"), .ok (.str "H"), .ok (.str "Doc"),
   .ok (.str "U"), .ok (.str "R")⟩

/-- Counterexample to C9: `refresh('dashboard')` maps to
`initializeDashboard`, which re-runs all five fetches — here it overwrites
the `statistics` and `health` slots (kinds other than `dashboard`), so it
does not re-run only the single fetch named by its kind. -/
theorem C9_refresh_dashboard_counterexample :
    (refreshData dashInit "dashboard" outsA).data.statistics = .str "S" ∧
    (refreshData dashInit "dashboard" outsA).data.health = .str "H" ∧
    dashInit.data.statistics = .null ∧
    dashInit.data.health = .null :=
  ⟨rfl, rfl, rfl, rfl⟩

/-- C9 amended: for the kinds `users`, `documents`, `health`, `statistics`
and `recentActivity`, `refreshData` re-runs exactly that one fetch and
changes only that kind's data slot, error entry and loading flag, leaving
every other part of the state untouched; the `dashboard` kind instead
re-runs the whole initialization (all five fetches). -/
theorem C9_refresh_single_kind (s : DashboardState) (o : FetchOutcomes) :
    refreshData s "users" o
      = { s with
          data := { s.data with users := updSlot s.data.users o.users },
          errors := { s.errors with users := updErr o.users },
          loading := { s.loading with users := false } } ∧
    refreshData s "documents" o
      = { s with
          data := { s.data with documents := updSlot s.data.documents o.documents },
          errors := { s.errors with documents := updErr o.documents },
          loading := { s.loading with documents := false } } ∧
    refreshData s "health" o
      = { s with
          data := { s.data with health := updSlot s.data.health o.health },
          errors := { s.errors with health := updErr o.health },
          loading := { s.loading with health := false } } ∧
    refreshData s "statistics" o
      = { s with
          data := { s.data with statistics := updSlot s.data.statistics o.statistics },
          errors := { s.errors with statistics := updErr o.statistics },
          loading := { s.loading with statistics := false } } ∧
    refreshData s "recentActivity" o
      = { s with
          data := { s.data with
            recentActivity := updSlot s.data.recentActivity o.recentActivity },
          errors := { s.errors with recentActivity := updErr o.recentActivity },
          loading := { s.loading with recentActivity := false } } ∧
    refreshData s "dashboard" o
      = initDashboard s o.statistics o.dashboard o.health o.documents o.recentActivity :=
  ⟨rfl, rfl, rfl, rfl, rfl, rfl⟩

end ENSF
